import Mathlib

/-!
Verification of the payment-reconciliation core of the alx_travel_app
repository (Django app `listings`): a shallow embedding of the payment
state machine implemented in `listings/views.py`, `listings/chapa_service.py`
and `listings/tasks.py`, together with theorems settling the specification
claims about it.

Conventions of the embedding:
* Django model instances become Lean structures; nullable columns become
  `Option` fields.  Timestamps are integers (seconds).
* Each HTTP view / task becomes a pure function from the relevant state
  plus the gateway answer to the new state; enqueued notification tasks
  are returned as an explicit list.
* Python truthiness on nullable strings (`if payment.chapa_transaction_id`)
  is modelled by `isTruthyTx`; `str.split()` / `str.join` by `pySplit` /
  `pyJoin`.
-/

namespace AlxTravel

/-- Python `str.lower()` (ASCII range, which covers every status string the
gateway vocabulary uses). -/
def pyLower (s : String) : String :=
  String.mk (s.data.map Char.toLower)

/-- Accumulator pass of Python `str.split()`: walk the characters, cutting a
token at every whitespace run. -/
def pyTokensGo : List Char → List Char → List (List Char)
  | [], cur => if cur.isEmpty then [] else [cur.reverse]
  | c :: rest, cur =>
    if c.isWhitespace then
      if cur.isEmpty then pyTokensGo rest []
      else cur.reverse :: pyTokensGo rest []
    else pyTokensGo rest (c :: cur)

/-- Python `str.split()` with no argument: split on runs of whitespace,
producing no empty tokens. -/
def pySplit (s : String) : List String :=
  (pyTokensGo s.data []).map String.mk

/-- The `status` column of the `Payment` model
(`models.py`, `STATUS_CHOICES`). -/
inductive PStatus where
  | pending
  | processing
  | completed
  | failed
  | cancelled
  | refunded
  deriving DecidableEq, Repr

/-- The fields of the `Payment` model that the payment views read or write
(`models.py`, class `Payment`).  `chapa_transaction_id`, `paid_at`,
`payment_method` and `failure_reason` are nullable columns, hence `Option`. -/
structure Payment where
  id : Nat
  status : PStatus
  chapaTransactionId : Option String
  chapaCheckoutUrl : Option String
  paidAt : Option Int
  paymentMethod : Option String
  failureReason : Option String
  createdAt : Int
  deriving DecidableEq, Repr

/-- A notification task enqueued with `.delay(...)` (`tasks.py`):
`send_payment_confirmation_email` or `send_payment_failure_notification`. -/
inductive Notif where
  | confirmation (paymentId : Nat)
  | failureNote (paymentId : Nat) (reason : String)
  deriving DecidableEq, Repr

/-- Result of `ChapaPaymentService.verify_payment` (`chapa_service.py`):
either a success dict carrying the gateway-reported `status` string and the
payment `type` (mapped to `payment_method`, possibly null), or a failure
(`success: False`) covering network errors, timeouts, non-2xx responses and
unparsable bodies. -/
inductive GwVerify where
  | ok (status : String) (paymentMethod : Option String)
  | err (msg : String)
  deriving DecidableEq, Repr

/-- The state transition applied by the `verify_payment` view when the
gateway round-trip succeeded (`views.py` lines 179-206): lowercase the
gateway status; `success` completes the payment (setting `paid_at` and
`payment_method`, enqueueing the confirmation email); `failed`/`cancelled`
fails it (setting `failure_reason`, enqueueing the failure notification);
anything else resets the status to `pending`. -/
def verifyApply (now : Int) (st : String) (pm : Option String) (p : Payment) :
    Payment × List Notif :=
  let cs := pyLower st
  if cs = "success" then
    ({ p with status := .completed, paidAt := some now, paymentMethod := pm },
     [Notif.confirmation p.id])
  else if cs = "failed" ∨ cs = "cancelled" then
    ({ p with status := .failed, failureReason := some ("Chapa status: " ++ cs) },
     [Notif.failureNote p.id ("Chapa status: " ++ cs)])
  else
    ({ p with status := .pending }, [])

/-- The state transition applied by the `payment_webhook` view when the
gateway re-verification succeeded (`views.py` lines 303-328).  Unlike
`verifyApply` it has no fallback branch: a gateway status other than
`success`/`failed`/`cancelled` leaves the payment unchanged, and the
`failure_reason` text starts with the marker `"Webhook status: "`. -/
def webhookApply (now : Int) (st : String) (pm : Option String) (p : Payment) :
    Payment × List Notif :=
  let cs := pyLower st
  if cs = "success" then
    ({ p with status := .completed, paidAt := some now, paymentMethod := pm },
     [Notif.confirmation p.id])
  else if cs = "failed" ∨ cs = "cancelled" then
    ({ p with status := .failed, failureReason := some ("Webhook status: " ++ cs) },
     [Notif.failureNote p.id ("Webhook status: " ++ cs)])
  else
    (p, [])

/-- Embedding of `ChapaPaymentService.get_payment_status` (`chapa_service.py`
lines 170-195): project the verify result onto the local status vocabulary via the
`status_mapping` dict (default `pending`); a failed gateway round-trip is
returned as `failed`. -/
def gatewayStatusProj (gw : GwVerify) : PStatus :=
  match gw with
  | .err _ => .failed
  | .ok st _ =>
    let cs := pyLower st
    if cs = "success" then .completed
    else if cs = "pending" then .pending
    else if cs = "failed" then .failed
    else if cs = "cancelled" then .cancelled
    else .pending

/-- Python truthiness of the nullable `chapa_transaction_id` column:
`None` and the empty string are falsy. -/
def isTruthyTx : Option String → Bool
  | none => false
  | some s => decide (s ≠ "")

/-- Opportunistic re-check of the `payment_status` view (`views.py` lines
251-259): when the payment is `pending`/`processing` and has a truthy
transaction id, fetch `get_payment_status` and, if different from the stored
status, write it back (setting `paid_at` when the new status is
`completed`). -/
def paymentStatusOp (now : Int) (gw : GwVerify) (p : Payment) : Payment :=
  if (p.status = .pending ∨ p.status = .processing) ∧
      isTruthyTx p.chapaTransactionId = true then
    let cur := gatewayStatusProj gw
    if cur ≠ p.status then
      if cur = .completed then { p with status := cur, paidAt := some now }
      else { p with status := cur }
    else p
  else p

/-- Selection predicate of `cleanup_expired_payments` (`tasks.py` lines
244-247): status equal to pending and `created_at__lt = now - 24h`
(24 h = 86400 s, strict inequality). -/
def isExpired (now : Int) (p : Payment) : Bool :=
  decide (p.status = PStatus.pending) && decide (p.createdAt < now - 86400)

/-- The per-row effect of the `cleanup_expired_payments` bulk update
(`tasks.py` lines 252-255): an expired pending payment becomes `cancelled`
with failure reason set to the literal text of `tasks.py` line 254; any other row is
untouched. -/
def expirePayment (now : Int) (p : Payment) : Payment :=
  if isExpired now p then
    { p with status := .cancelled,
             failureReason := some "Payment expired after 24 hours" }
  else p

/-- The `cleanup_expired_payments` task (`tasks.py` lines 234-263): count
the expired pending payments, bulk-update them, and return the count. -/
def cleanupExpiredPayments (now : Int) (ps : List Payment) :
    List Payment × Nat :=
  (ps.map (expirePayment now), (ps.filter (isExpired now)).length)

/-- One state-mutating operation on a single stored payment, as performed by
the verify view, the webhook view, the re-check of the status view, or the expiry
sweep.  A failed gateway round-trip (`GwVerify.err`) leaves the payment
unchanged on the verify and webhook paths (`views.py` lines 216-223 and
337-342 return an error response without saving). -/
inductive Op where
  | verify (now : Int) (gw : GwVerify)
  | webhook (now : Int) (gw : GwVerify)
  | statusCheck (now : Int) (gw : GwVerify)
  | expire (now : Int)
  deriving DecidableEq, Repr

/-- Effect of one operation on one stored payment. -/
def applyOp (op : Op) (p : Payment) : Payment :=
  match op with
  | .verify now gw =>
    match gw with
    | .ok st pm => (verifyApply now st pm p).1
    | .err _ => p
  | .webhook now gw =>
    match gw with
    | .ok st pm => (webhookApply now st pm p).1
    | .err _ => p
  | .statusCheck now gw => paymentStatusOp now gw p
  | .expire now => expirePayment now p

/-- Run a sequence of operations on a stored payment. -/
def runOps (ops : List Op) (p : Payment) : Payment :=
  ops.foldl (fun q op => applyOp op q) p

/-- Lookup `Payment.objects.filter(chapa_transaction_id=ref).first()`, also
used as `get_object_or_404(Payment, chapa_transaction_id=ref)`: SQL equality of the
nullable column against the given string (`NULL` matches nothing). -/
def findByTx (store : List Payment) (ref : String) : Option Payment :=
  store.find? (fun p => decide (p.chapaTransactionId = some ref))

/-- Persistence step `payment.save()`: write the mutated instance back over the row with the
same primary key. -/
def updateStore (store : List Payment) (p : Payment) : List Payment :=
  store.map (fun q => if q.id = p.id then p else q)

/-- The mutable fields of the response view built by
`PaymentStatusSerializer` (`serializers.py` lines 50-68), restricted to the
columns carried by this embedding. -/
structure StatusView where
  id : Nat
  status : PStatus
  paymentMethod : Option String
  paidAt : Option Int
  deriving DecidableEq, Repr

/-- Project a payment onto its serialized status view. -/
def statusView (p : Payment) : StatusView :=
  { id := p.id, status := p.status, paymentMethod := p.paymentMethod,
    paidAt := p.paidAt }

/-- Outcome of the `verify_payment` view. -/
inductive VerifyEndpointOutcome where
  | okView (v : StatusView)
  | gatewayError (msg : String)
  | notFound
  deriving DecidableEq, Repr

/-- The `verify_payment` view (`views.py` lines 151-238) over the payment
store: look the payment up by transaction id, call the gateway, apply
`verifyApply` on gateway success, and return an error response without
saving anything on gateway failure. -/
def verifyPaymentEndpoint (store : List Payment) (txId : String)
    (gw : GwVerify) (now : Int) :
    VerifyEndpointOutcome × List Payment × List Notif :=
  match findByTx store txId with
  | none => (.notFound, store, [])
  | some p =>
    match gw with
    | .ok st pm =>
      let r := verifyApply now st pm p
      (.okView (statusView r.1), updateStore store r.1, r.2)
    | .err m => (.gatewayError m, store, [])

/-- Outcome of the `payment_webhook` view. -/
inductive WebhookOutcome where
  | processed
  | malformed
  | notFound
  | verifyFailed
  deriving DecidableEq, Repr

/-- A webhook request body: the handler reads only `tx_ref`
(`views.py` line 285); any status field the payload may carry is ignored. -/
structure WebhookPayload where
  txRef : Option String
  payloadStatus : Option String
  deriving DecidableEq, Repr

/-- The `payment_webhook` view (`views.py` lines 277-342): reject a falsy
`tx_ref` as malformed (400); report an unknown transaction as not-found
(404) without touching the store; otherwise re-verify with the gateway and
apply `webhookApply` on success, or return a verification-failed response
(400) without saving on gateway failure. -/
def paymentWebhookOp (store : List Payment) (payload : WebhookPayload)
    (gw : GwVerify) (now : Int) :
    WebhookOutcome × List Payment × List Notif :=
  match payload.txRef with
  | none => (.malformed, store, [])
  | some r =>
    if r = "" then (.malformed, store, [])
    else
      match findByTx store r with
      | none => (.notFound, store, [])
      | some p =>
        match gw with
        | .ok st pm =>
          let w := webhookApply now st pm p
          (.processed, updateStore store w.1, w.2)
        | .err _ => (.verifyFailed, store, [])

/-- Outcome of the `initiate_payment` view. -/
inductive InitOutcome where
  | conflict (existingStatus : PStatus)
  | created
  | initFailed (msg : String)
  deriving DecidableEq, Repr

/-- Result of `ChapaPaymentService.initiate_payment` as consumed by the
view: a checkout url and transaction id on success, an error text
otherwise. -/
inductive GwInit where
  | ok (checkoutUrl : String) (txId : String)
  | err (msg : String)
  deriving DecidableEq, Repr

/-- The fresh row built by `Payment.objects.create(...)` in
`initiate_payment` (`views.py` lines 80-88): status `pending`, all
gateway-correlation and completion columns null. -/
def mkFreshPayment (fid : Nat) (now : Int) : Payment :=
  { id := fid, status := .pending, chapaTransactionId := none,
    chapaCheckoutUrl := none, paidAt := none, paymentMethod := none,
    failureReason := none, createdAt := now }

/-- Tail of `initiate_payment` after the conflict check (`views.py` lines
80-138): create the fresh pending row, call the gateway; on success store
the checkout url and transaction id and move to `processing`; on failure
move to `failed` with the error text of the gateway (the transaction id is never
assigned on this branch). -/
def finishInit (fid : Nat) (now : Int) (gw : GwInit) :
    InitOutcome × Option Payment :=
  let p := mkFreshPayment fid now
  match gw with
  | .ok url tx =>
    (.created, some { p with status := .processing,
                             chapaCheckoutUrl := some url,
                             chapaTransactionId := some tx })
  | .err e =>
    (.initFailed e, some { p with status := .failed,
                                  failureReason := some e })

/-- The `initiate_payment` view (`views.py` lines 42-146) acting on the
payment slot of the booking: reject with a conflict if the existing payment is
`completed` or `processing` (leaving it untouched); otherwise delete any
existing payment and create the replacement. -/
def initiatePayment (existing : Option Payment) (fid : Nat) (now : Int)
    (gw : GwInit) : InitOutcome × Option Payment :=
  match existing with
  | some ex =>
    if ex.status = .completed ∨ ex.status = .processing then
      (.conflict ex.status, some ex)
    else finishInit fid now gw
  | none => finishInit fid now gw

/-- Python `sep.join(parts)`. -/
def pyJoin (sep : String) : List String → String
  | [] => ""
  | [x] => x
  | x :: y :: xs => x ++ sep ++ pyJoin sep (y :: xs)

/-- The input dict assembled by the `initiate_payment` view for
`ChapaPaymentService.initiate_payment` (`views.py` lines 91-101), with the
amount already stringified. -/
structure PaymentData where
  amount : String
  currency : String
  customerEmail : String
  customerPhone : String
  customerName : String
  reference : String
  bookingId : Int
  returnUrl : String
  callbackUrl : String
  deriving DecidableEq, Repr

/-- A value of the outbound Chapa request dict: either a string field or the
`meta` object `{booking_id, customer_name}` (`chapa_service.py` lines
88-91). -/
inductive JVal where
  | str (v : String)
  | metaObj (bookingId : Int) (customerName : String)
  deriving DecidableEq, Repr

/-- Python truthiness of a request-dict value: an empty string is falsy; the
`meta` dict literal always has two keys, hence is always truthy. -/
def jtruthy : JVal → Bool
  | .str v => decide (v ≠ "")
  | .metaObj _ _ => true

/-- First-name token extraction of `chapa_service.py` line 81: the first
element of the split name when the name is truthy, the empty string when the
name is empty.  Here `none` models the `IndexError`
raised when the name is non-empty but consists only of whitespace, so that
`split()` returns an empty list. -/
def chapaFirstName (name : String) : Option String :=
  if name ≠ "" then (pySplit name).head? else some ""

/-- Last-name computation of `chapa_service.py` line 82: the remaining
tokens of the split name joined with single spaces when there are at least
two tokens, the empty string otherwise. -/
def chapaLastName (name : String) : String :=
  if (pySplit name).length > 1 then pyJoin " " ((pySplit name).drop 1)
  else ""

/-- The `chapa_data` dict literal (`chapa_service.py` lines 77-92), before
the empty-field filter, with the first name already resolved. -/
def chapaFieldsWith (pd : PaymentData) (fn : String) : List (String × JVal) :=
  [("amount", .str pd.amount),
   ("currency", .str pd.currency),
   ("email", .str pd.customerEmail),
   ("first_name", .str fn),
   ("last_name", .str (chapaLastName pd.customerName)),
   ("phone_number", .str pd.customerPhone),
   ("tx_ref", .str pd.reference),
   ("callback_url", .str pd.callbackUrl),
   ("return_url", .str pd.returnUrl),
   ("description", .str ("Payment for booking " ++ toString pd.bookingId)),
   ("meta", .metaObj pd.bookingId pd.customerName)]

/-- The outbound Chapa initiation request (`chapa_service.py` lines 77-95):
build the dict, then drop every falsy field (`{k: v for k, v in ... if v}`).
`none` models the `IndexError` on a whitespace-only customer name. -/
def buildChapaData (pd : PaymentData) : Option (List (String × JVal)) :=
  match chapaFirstName pd.customerName with
  | none => none
  | some fn => some ((chapaFieldsWith pd fn).filter (fun kv => jtruthy kv.2))

/-! Concrete example payments used by counterexamples and witnesses. -/

/-- A payment that has completed: `paid_at` set, gateway id assigned. -/
def pCompleted : Payment :=
  { id := 1, status := .completed, chapaTransactionId := some "tx-1",
    chapaCheckoutUrl := some "https://pay/x", paidAt := some 10,
    paymentMethod := some "card", failureReason := none, createdAt := 0 }

/-- A payment mid-flight: `processing`, gateway id assigned, not yet paid. -/
def pProcessing : Payment :=
  { id := 2, status := .processing, chapaTransactionId := some "tx-2",
    chapaCheckoutUrl := some "https://pay/y", paidAt := none,
    paymentMethod := none, failureReason := none, createdAt := 0 }

/-- A pending payment with a gateway id (initiation succeeded but the row
was later reset to pending by a verify fallback, or is mid-update). -/
def pPending : Payment :=
  { id := 3, status := .pending, chapaTransactionId := some "tx-3",
    chapaCheckoutUrl := none, paidAt := none, paymentMethod := none,
    failureReason := none, createdAt := 0 }

/-- A payment whose initiation failed: no gateway id. -/
def pFailed : Payment :=
  { id := 4, status := .failed, chapaTransactionId := none,
    chapaCheckoutUrl := none, paidAt := none, paymentMethod := none,
    failureReason := some "init rejected", createdAt := 0 }

/-! Theorems settling the specification claims. -/

/-- C1 counterexample.  The claim says that re-verifying an
already-completed payment (gateway still reporting success) yields the same
status view both times, leaves the record (including paid_at) unchanged,
and enqueues the confirmation notification exactly once in total.  On the
code, two such calls at times 20 and 30 enqueue the confirmation email
twice, produce two different status views, and overwrite paid_at. -/
theorem c1_counterexample :
    (verifyApply 20 "success" (some "card") pCompleted).2 ++
      (verifyApply 30 "success" (some "card")
        (verifyApply 20 "success" (some "card") pCompleted).1).2 =
      [Notif.confirmation 1, Notif.confirmation 1] ∧
    statusView (verifyApply 20 "success" (some "card") pCompleted).1 ≠
      statusView (verifyApply 30 "success" (some "card")
        (verifyApply 20 "success" (some "card") pCompleted).1).1 ∧
    (verifyApply 20 "success" (some "card") pCompleted).1.paidAt ≠
      pCompleted.paidAt := by
  decide

/-- C1 amended.  Re-verifying an already-completed payment with the gateway
still reporting success yields status completed both times, but each call
overwrites paid_at with the time of that call and enqueues the confirmation
notification once per call, so twice in total across the two calls. -/
theorem c1_amended (p : Payment) (n1 n2 : Int) (pm1 pm2 : Option String)
    (_h : p.status = PStatus.completed) :
    (verifyApply n1 "success" pm1 p).1.status = PStatus.completed ∧
    (verifyApply n2 "success" pm2
      (verifyApply n1 "success" pm1 p).1).1.status = PStatus.completed ∧
    (verifyApply n1 "success" pm1 p).1.paidAt = some n1 ∧
    (verifyApply n2 "success" pm2
      (verifyApply n1 "success" pm1 p).1).1.paidAt = some n2 ∧
    (verifyApply n1 "success" pm1 p).2 ++
      (verifyApply n2 "success" pm2 (verifyApply n1 "success" pm1 p).1).2 =
      [Notif.confirmation p.id, Notif.confirmation p.id] := by
  have hs : pyLower "success" = "success" := by decide
  simp [verifyApply, hs]

/-- C1 witness: the amended statement at the concrete completed payment
pCompleted and call times 20 and 30. -/
theorem c1_witness :
    (verifyApply 20 "success" (some "m") pCompleted).1.status =
      PStatus.completed ∧
    (verifyApply 30 "success" (some "m")
      (verifyApply 20 "success" (some "m") pCompleted).1).1.status =
      PStatus.completed ∧
    (verifyApply 20 "success" (some "m") pCompleted).1.paidAt = some 20 ∧
    (verifyApply 30 "success" (some "m")
      (verifyApply 20 "success" (some "m") pCompleted).1).1.paidAt =
      some 30 ∧
    (verifyApply 20 "success" (some "m") pCompleted).2 ++
      (verifyApply 30 "success" (some "m")
        (verifyApply 20 "success" (some "m") pCompleted).1).2 =
      [Notif.confirmation pCompleted.id, Notif.confirmation pCompleted.id] :=
  c1_amended pCompleted 20 30 (some "m") (some "m") (by decide)

/-- C2 counterexample.  The claim says a payment in a terminal status never
changes status again and that failed payments are never resurrected in
place.  On the code, a verify call with gateway outcome failed demotes a
completed payment to failed, and a verify call with gateway outcome success
promotes a failed payment to completed in place. -/
theorem c2_counterexample :
    pCompleted.status = PStatus.completed ∧
    (applyOp (Op.verify 5 (GwVerify.ok "failed" none)) pCompleted).status =
      PStatus.failed ∧
    pFailed.status = PStatus.failed ∧
    (applyOp (Op.verify 6 (GwVerify.ok "success" none)) pFailed).status =
      PStatus.completed := by
  decide

/-- C2 amended.  The status endpoint re-check and the expiry sweep never
change a payment whose status is completed, cancelled, refunded or failed,
and re-initiation over a failed payment replaces the record with a fresh
one (the stored payment afterwards is the new row, not the old one); the
verify and webhook operations, however, re-apply the gateway outcome
unconditionally and can change any status in place. -/
theorem c2_amended (p : Payment) (now : Int) (gw : GwVerify) (fid : Nat)
    (gi : GwInit)
    (h : p.status = PStatus.completed ∨ p.status = PStatus.cancelled ∨
         p.status = PStatus.refunded ∨ p.status = PStatus.failed) :
    paymentStatusOp now gw p = p ∧
    expirePayment now p = p ∧
    (p.status = PStatus.failed →
      ∃ q, (initiatePayment (some p) fid now gi).2 = some q ∧ q.id = fid) := by
  have hne : ¬ (p.status = PStatus.pending ∨ p.status = PStatus.processing) := by
    rcases h with h | h | h | h <;> simp [h]
  have hnp : p.status ≠ PStatus.pending := fun hc => hne (Or.inl hc)
  refine ⟨?_, ?_, ?_⟩
  · unfold paymentStatusOp
    rw [if_neg (fun hc => hne hc.1)]
  · unfold expirePayment
    rw [if_neg]
    simp [isExpired, hnp]
  · intro hf
    simp only [initiatePayment]
    rw [if_neg (by simp [hf])]
    cases gi <;> exact ⟨_, rfl, rfl⟩

/-- C2 witness: the amended statement at the concrete completed payment
pCompleted, a failed gateway outcome, and a fresh id 9. -/
theorem c2_witness :
    paymentStatusOp 50 (GwVerify.ok "failed" none) pCompleted = pCompleted ∧
    expirePayment 500000 pCompleted = pCompleted ∧
    (pCompleted.status = PStatus.failed →
      ∃ q, (initiatePayment (some pCompleted) 9 50
        (GwInit.ok "u" "t")).2 = some q ∧ q.id = 9) :=
  c2_amended pCompleted 50 (GwVerify.ok "failed" none) 9
    (GwInit.ok "u" "t") (by decide)

/-- C3 counterexample.  The claim says the webhook handler applies exactly
the same transition as verify for every gateway outcome.  On the code, a
gateway outcome with status pending resets the payment to pending under
verify but leaves it processing under webhook, and the failure_reason texts
written by the two handlers differ. -/
theorem c3_counterexample :
    (verifyApply 7 "pending" none pProcessing).1.status = PStatus.pending ∧
    (webhookApply 7 "pending" none pProcessing).1.status =
      PStatus.processing ∧
    (verifyApply 7 "failed" none pProcessing).1.failureReason =
      some "Chapa status: failed" ∧
    (webhookApply 7 "failed" none pProcessing).1.failureReason =
      some "Webhook status: failed" ∧
    (verifyApply 7 "failed" none pProcessing).1.failureReason ≠
      (webhookApply 7 "failed" none pProcessing).1.failureReason := by
  decide

/-- C3 amended.  Verify and webhook apply identical transitions (same
state, same notifications) when the gateway reports success; when it
reports failed or cancelled both set status failed and enqueue one failure
notification, but the stored and notified failure_reason texts differ
(leading marker Chapa status vs Webhook status); for any other gateway-reported
status verify resets the payment to pending while webhook leaves it
unchanged; and the webhook result depends only on the tx_ref of the
payload, never on a status field the payload may carry. -/
theorem c3_amended (now : Int) (st : String) (pm : Option String)
    (p : Payment) (store : List Payment) (pl1 pl2 : WebhookPayload)
    (gw : GwVerify) :
    (pyLower st = "success" →
      webhookApply now st pm p = verifyApply now st pm p) ∧
    (pyLower st = "failed" ∨ pyLower st = "cancelled" →
      (webhookApply now st pm p).1.status = PStatus.failed ∧
      (verifyApply now st pm p).1.status = PStatus.failed ∧
      (webhookApply now st pm p).1.failureReason =
        some ("Webhook status: " ++ pyLower st) ∧
      (verifyApply now st pm p).1.failureReason =
        some ("Chapa status: " ++ pyLower st) ∧
      (webhookApply now st pm p).2 =
        [Notif.failureNote p.id ("Webhook status: " ++ pyLower st)] ∧
      (verifyApply now st pm p).2 =
        [Notif.failureNote p.id ("Chapa status: " ++ pyLower st)]) ∧
    (pyLower st ≠ "success" → pyLower st ≠ "failed" →
      pyLower st ≠ "cancelled" →
      (webhookApply now st pm p).1 = p ∧ (webhookApply now st pm p).2 = [] ∧
      (verifyApply now st pm p).1 = { p with status := PStatus.pending } ∧
      (verifyApply now st pm p).2 = []) ∧
    (pl1.txRef = pl2.txRef →
      paymentWebhookOp store pl1 gw now = paymentWebhookOp store pl2 gw now) := by
  refine ⟨?_, ?_, ?_, ?_⟩
  · intro h
    simp [webhookApply, verifyApply, h]
  · rintro (h | h) <;> simp [webhookApply, verifyApply, h]
  · intro h1 h2 h3
    simp [webhookApply, verifyApply, h1, h2, h3]
  · intro h
    simp only [paymentWebhookOp, h]

/-- C3 witness: the amended statement instantiated at gateway statuses
success, failed and reversed over the concrete processing payment, and at
two webhook payloads sharing tx_ref but carrying different status fields. -/
theorem c3_witness :
    webhookApply 7 "success" (some "m") pProcessing =
      verifyApply 7 "success" (some "m") pProcessing ∧
    (webhookApply 7 "failed" none pProcessing).1.status = PStatus.failed ∧
    (webhookApply 7 "reversed" none pProcessing).1 = pProcessing ∧
    paymentWebhookOp [pProcessing]
        { txRef := some "tx-2", payloadStatus := some "success" }
        (GwVerify.ok "failed" none) 7 =
      paymentWebhookOp [pProcessing]
        { txRef := some "tx-2", payloadStatus := some "spoofed" }
        (GwVerify.ok "failed" none) 7 :=
  ⟨(c3_amended 7 "success" (some "m") pProcessing [] ⟨none, none⟩ ⟨none, none⟩
      (GwVerify.err "x")).1 (by decide),
   ((c3_amended 7 "failed" none pProcessing [] ⟨none, none⟩ ⟨none, none⟩
      (GwVerify.err "x")).2.1 (Or.inl (by decide))).1,
   ((c3_amended 7 "reversed" none pProcessing [] ⟨none, none⟩ ⟨none, none⟩
      (GwVerify.err "x")).2.2.1 (by decide) (by decide) (by decide)).1,
   (c3_amended 7 "x" none pProcessing [pProcessing]
      { txRef := some "tx-2", payloadStatus := some "success" }
      { txRef := some "tx-2", payloadStatus := some "spoofed" }
      (GwVerify.ok "failed" none)).2.2.2 rfl⟩

/-- C4 counterexample.  The claim says a gateway failure during the
opportunistic re-check on the status endpoint leaves the stored payment
untouched.  On the code, get_payment_status maps a failed gateway
round-trip to the string failed, and the status view writes that back: a
pending payment with a transaction id becomes failed after a gateway error. -/
theorem c4_counterexample :
    pPending.status = PStatus.pending ∧
    (paymentStatusOp 0 (GwVerify.err "timeout") pPending).status =
      PStatus.failed ∧
    paymentStatusOp 0 (GwVerify.err "timeout") pPending ≠ pPending := by
  decide

/-- C4 amended.  A gateway failure during the verify endpoint leaves the
payment store untouched and enqueues nothing, whatever the lookup finds;
but on the status endpoint a gateway failure on a pending or processing
payment with a truthy transaction id is mapped to a failed transition and
written back to the record. -/
theorem c4_amended (store : List Payment) (txId : String) (m : String)
    (now : Int) (p : Payment) :
    (verifyPaymentEndpoint store txId (GwVerify.err m) now).2.1 = store ∧
    (verifyPaymentEndpoint store txId (GwVerify.err m) now).2.2 = [] ∧
    ((p.status = PStatus.pending ∨ p.status = PStatus.processing) →
      isTruthyTx p.chapaTransactionId = true →
      paymentStatusOp now (GwVerify.err m) p =
        { p with status := PStatus.failed }) := by
  refine ⟨?_, ?_, ?_⟩
  · unfold verifyPaymentEndpoint
    cases findByTx store txId <;> rfl
  · unfold verifyPaymentEndpoint
    cases findByTx store txId <;> rfl
  · intro hs ht
    unfold paymentStatusOp
    rw [if_pos ⟨hs, ht⟩]
    have hproj : gatewayStatusProj (GwVerify.err m) = PStatus.failed := rfl
    rw [hproj]
    rcases hs with hs | hs <;>
      rw [if_pos (by simp [hs]), if_neg (by simp)]

/-- C4 witness: the amended statement at a one-payment store and the
concrete pending payment pPending under a gateway timeout. -/
theorem c4_witness :
    (verifyPaymentEndpoint [pPending] "tx-3" (GwVerify.err "timeout") 0).2.1 =
      [pPending] ∧
    (verifyPaymentEndpoint [pPending] "tx-3" (GwVerify.err "timeout") 0).2.2 =
      [] ∧
    ((pPending.status = PStatus.pending ∨
        pPending.status = PStatus.processing) →
      isTruthyTx pPending.chapaTransactionId = true →
      paymentStatusOp 0 (GwVerify.err "timeout") pPending =
        { pPending with status := PStatus.failed }) :=
  c4_amended [pPending] "tx-3" "timeout" 0 pPending

/-- Helper for C5: every single operation preserves the one-directional
invariant (a completed payment has paid_at set) and never clears a set
paid_at. -/
theorem applyOp_paid_invariant (op : Op) (p : Payment)
    (h : p.status = PStatus.completed → p.paidAt ≠ none) :
    ((applyOp op p).status = PStatus.completed →
      (applyOp op p).paidAt ≠ none) ∧
    (p.paidAt ≠ none → (applyOp op p).paidAt ≠ none) := by
  cases op with
  | verify now gw =>
    cases gw with
    | ok st pm =>
      simp only [applyOp, verifyApply]
      split_ifs <;> simp_all
    | err m => exact ⟨h, fun hp => hp⟩
  | webhook now gw =>
    cases gw with
    | ok st pm =>
      simp only [applyOp, webhookApply]
      split_ifs <;> simp_all
    | err m => exact ⟨h, fun hp => hp⟩
  | statusCheck now gw =>
    simp only [applyOp, paymentStatusOp]
    split_ifs <;> simp_all
  | expire now =>
    simp only [applyOp, expirePayment]
    split_ifs <;> simp_all

/-- C5 counterexample.  The claim says paid_at is non-null exactly when the
status is completed, for every payment reachable by the operations.  On the
code, completing a processing payment and then re-verifying while the
gateway reports failed leaves the record failed with paid_at still set. -/
theorem c5_counterexample :
    (runOps [Op.verify 100 (GwVerify.ok "success" none),
             Op.verify 200 (GwVerify.ok "failed" none)] pProcessing).status =
      PStatus.failed ∧
    (runOps [Op.verify 100 (GwVerify.ok "success" none),
             Op.verify 200 (GwVerify.ok "failed" none)] pProcessing).paidAt =
      some 100 := by
  decide

/-- C5 amended.  Along every sequence of verify/webhook/status/expiry
operations, a payment whose status is completed always has paid_at set (the
left-to-right half would need demotions to clear paid_at, which the code
never does): formally, the implication from completed to non-null paid_at
is an inductive invariant, and a non-null paid_at stays non-null forever. -/
theorem c5_amended (p0 : Payment) (ops : List Op)
    (h : p0.status = PStatus.completed → p0.paidAt ≠ none) :
    ((runOps ops p0).status = PStatus.completed →
      (runOps ops p0).paidAt ≠ none) ∧
    (p0.paidAt ≠ none → (runOps ops p0).paidAt ≠ none) := by
  induction ops generalizing p0 with
  | nil => exact ⟨h, fun hp => hp⟩
  | cons op rest ih =>
    have hstep := applyOp_paid_invariant op p0 h
    have hrec := ih (applyOp op p0) hstep.1
    exact ⟨hrec.1, fun hp => hrec.2 (hstep.2 hp)⟩

/-- C5 witness: the amended statement on the concrete processing payment
under a completing verify followed by a demoting verify. -/
theorem c5_witness :
    ((runOps [Op.verify 100 (GwVerify.ok "success" none),
              Op.verify 200 (GwVerify.ok "failed" none)]
        pProcessing).status = PStatus.completed →
      (runOps [Op.verify 100 (GwVerify.ok "success" none),
               Op.verify 200 (GwVerify.ok "failed" none)]
        pProcessing).paidAt ≠ none) ∧
    (pProcessing.paidAt ≠ none →
      (runOps [Op.verify 100 (GwVerify.ok "success" none),
               Op.verify 200 (GwVerify.ok "failed" none)]
        pProcessing).paidAt ≠ none) :=
  c5_amended pProcessing
    [Op.verify 100 (GwVerify.ok "success" none),
     Op.verify 200 (GwVerify.ok "failed" none)] (by decide)

/-- C6 confirmed.  If the booking already has a payment in completed or
processing state, initiation is rejected with a conflict and the existing
payment is returned untouched (no new record); if the existing payment is
in any other state, the stored payment afterwards is the freshly created
replacement (the old record was deleted first). -/
theorem c6_theorem (ex : Payment) (fid : Nat) (now : Int) (gw : GwInit) :
    ((ex.status = PStatus.completed ∨ ex.status = PStatus.processing) →
      initiatePayment (some ex) fid now gw =
        (InitOutcome.conflict ex.status, some ex)) ∧
    (¬ (ex.status = PStatus.completed ∨ ex.status = PStatus.processing) →
      ∃ q, (initiatePayment (some ex) fid now gw).2 = some q ∧ q.id = fid) := by
  constructor
  · intro h
    simp only [initiatePayment]
    rw [if_pos h]
  · intro h
    simp only [initiatePayment]
    rw [if_neg h]
    cases gw <;> exact ⟨_, rfl, rfl⟩

/-- C6 witness: a second initiation over the concrete processing payment is
rejected as a conflict, and initiation over the concrete failed payment
stores the fresh record with the new id 7. -/
theorem c6_witness :
    initiatePayment (some pProcessing) 7 0 (GwInit.ok "u" "t") =
      (InitOutcome.conflict pProcessing.status, some pProcessing) ∧
    (∃ q, (initiatePayment (some pFailed) 7 0 (GwInit.ok "u" "t")).2 =
      some q ∧ q.id = 7) :=
  ⟨(c6_theorem pProcessing 7 0 (GwInit.ok "u" "t")).1 (Or.inr rfl),
   (c6_theorem pFailed 7 0 (GwInit.ok "u" "t")).2 (by decide)⟩

/-- Helper for C7: unfolding equation of the per-row expiry update on a row
the predicate does not select. -/
theorem expirePayment_eq_self (now : Int) (p : Payment)
    (h : isExpired now p = false) : expirePayment now p = p := by
  simp [expirePayment, h]

/-- Helper for C7: unfolding equation of the per-row expiry update on a row
the predicate selects. -/
theorem expirePayment_eq_update (now : Int) (p : Payment)
    (h : isExpired now p = true) :
    expirePayment now p =
      { p with status := PStatus.cancelled,
               failureReason := some "Payment expired after 24 hours" } := by
  simp [expirePayment, h]

/-- Helper for C7: the per-row expiry update changes a row exactly when the
selection predicate holds. -/
theorem expirePayment_changes_iff (now : Int) (p : Payment) :
    (expirePayment now p ≠ p) ↔ isExpired now p = true := by
  constructor
  · intro h
    by_contra hb
    rw [Bool.not_eq_true] at hb
    exact h (expirePayment_eq_self now p hb)
  · intro h heq
    have hp : p.status = PStatus.pending := by
      have hand : (decide (p.status = PStatus.pending) &&
          decide (p.createdAt < now - 86400)) = true := by
        simpa [isExpired] using h
      exact of_decide_eq_true ((Bool.and_eq_true _ _).mp hand).1
    have hst := congrArg Payment.status heq
    rw [expirePayment_eq_update now p h] at hst
    simp [hp] at hst

/-- Helper for C7: a row that went through the expiry update is never
selected by the predicate again. -/
theorem isExpired_expirePayment (now : Int) (p : Payment) :
    isExpired now (expirePayment now p) = false := by
  by_cases h : isExpired now p = true
  · rw [expirePayment_eq_update now p h]
    simp [isExpired]
  · rw [Bool.not_eq_true] at h
    rw [expirePayment_eq_self now p h]
    exact h

/-- Helper for C7: the per-row expiry update is idempotent. -/
theorem expirePayment_idem (now : Int) (p : Payment) :
    expirePayment now (expirePayment now p) = expirePayment now p :=
  expirePayment_eq_self now _ (isExpired_expirePayment now p)

/-- C7 counterexample.  The claim says the expiry sweep cancels a stale
pending payment with failure_reason equal to the literal string expired.
On the code, the bulk update writes the longer text instead. -/
theorem c7_counterexample :
    (cleanupExpiredPayments 200000 [pPending]).1 =
      [{ pPending with status := PStatus.cancelled,
                       failureReason :=
                         some "Payment expired after 24 hours" }] ∧
    (cleanupExpiredPayments 200000 [pPending]).2 = 1 ∧
    ({ pPending with status := PStatus.cancelled,
                     failureReason :=
                       some "Payment expired after 24 hours" } :
        Payment).failureReason ≠ some "expired" := by
  decide

/-- C7 amended.  The expiry sweep cancels exactly the pending payments
created more than 24 hours before now, writing failure_reason equal to the
text Payment expired after 24 hours; it leaves every other row untouched,
returns the number of rows it changed, and running it again on its own
output changes nothing and reports zero. -/
theorem c7_amended (now : Int) (ps : List Payment) :
    (cleanupExpiredPayments now ps).1.length = ps.length ∧
    (∀ i p, ps.get? i = some p →
      ((p.status = PStatus.pending ∧ p.createdAt < now - 86400) →
        (cleanupExpiredPayments now ps).1.get? i =
          some { p with status := PStatus.cancelled,
                        failureReason :=
                          some "Payment expired after 24 hours" }) ∧
      (¬ (p.status = PStatus.pending ∧ p.createdAt < now - 86400) →
        (cleanupExpiredPayments now ps).1.get? i = some p)) ∧
    (cleanupExpiredPayments now ps).2 =
      (ps.filter (fun p => decide (expirePayment now p ≠ p))).length ∧
    cleanupExpiredPayments now (cleanupExpiredPayments now ps).1 =
      ((cleanupExpiredPayments now ps).1, 0) := by
  refine ⟨by simp [cleanupExpiredPayments], ?_, ?_, ?_⟩
  · intro i p hp
    have hp2 : ps[i]? = some p := by
      rwa [List.get?_eq_getElem?] at hp
    have hget : (cleanupExpiredPayments now ps).1.get? i =
        some (expirePayment now p) := by
      simp [cleanupExpiredPayments, List.get?_eq_getElem?,
        List.getElem?_map, hp2]
    constructor
    · intro hexp
      have he : isExpired now p = true := by
        simp [isExpired, hexp.1, hexp.2]
      rw [hget, expirePayment_eq_update now p he]
    · intro hexp
      have he : isExpired now p = false := by
        simp only [isExpired, Bool.and_eq_true, decide_eq_true_eq,
          ← Bool.not_eq_true]
        exact fun hc => hexp hc
      rw [hget, expirePayment_eq_self now p he]
  · simp only [cleanupExpiredPayments]
    congr 1
    apply List.filter_congr
    intro p _
    by_cases h : isExpired now p = true
    · rw [h]
      exact (decide_eq_true ((expirePayment_changes_iff now p).mpr h)).symm
    · rw [Bool.not_eq_true] at h
      rw [h]
      have hne : ¬ (expirePayment now p ≠ p) := fun hc =>
        (Bool.not_eq_true _).mpr h ((expirePayment_changes_iff now p).mp hc)
      exact (decide_eq_false hne).symm
  · have h1 : List.map (expirePayment now)
        (List.map (expirePayment now) ps) =
        List.map (expirePayment now) ps := by
      rw [List.map_map]
      exact List.map_congr_left (fun p _ => expirePayment_idem now p)
    have h2 : List.filter (isExpired now)
        (List.map (expirePayment now) ps) = [] := by
      rw [List.filter_eq_nil]
      intro q hq
      rcases List.mem_map.mp hq with ⟨p, _, rfl⟩
      simp [isExpired_expirePayment now p]
    simp [cleanupExpiredPayments, h1, h2]

/-- C7 witness: the amended statement on a store holding one stale pending
payment and one completed payment, swept at time 200000. -/
theorem c7_witness :
    (cleanupExpiredPayments 200000 [pPending, pCompleted]).1.length =
      ([pPending, pCompleted] : List Payment).length ∧
    (cleanupExpiredPayments 200000 [pPending, pCompleted]).1.get? 0 =
      some { pPending with status := PStatus.cancelled,
                           failureReason :=
                             some "Payment expired after 24 hours" } ∧
    (cleanupExpiredPayments 200000 [pPending, pCompleted]).1.get? 1 =
      some pCompleted ∧
    (cleanupExpiredPayments 200000 [pPending, pCompleted]).2 =
      (([pPending, pCompleted] : List Payment).filter
        (fun p => decide (expirePayment 200000 p ≠ p))).length ∧
    cleanupExpiredPayments 200000
        (cleanupExpiredPayments 200000 [pPending, pCompleted]).1 =
      ((cleanupExpiredPayments 200000 [pPending, pCompleted]).1, 0) :=
  ⟨(c7_amended 200000 [pPending, pCompleted]).1,
   ((c7_amended 200000 [pPending, pCompleted]).2.1 0 pPending rfl).1
     (by decide),
   ((c7_amended 200000 [pPending, pCompleted]).2.1 1 pCompleted rfl).2
     (by decide),
   (c7_amended 200000 [pPending, pCompleted]).2.2.1,
   (c7_amended 200000 [pPending, pCompleted]).2.2.2⟩

/-- Helper for C8: the token walker never emits an empty token. -/
theorem pyTokensGo_mem_ne_nil :
    ∀ (cs cur : List Char) (t : List Char), t ∈ pyTokensGo cs cur → t ≠ [] := by
  intro cs
  induction cs with
  | nil =>
    intro cur t ht
    simp only [pyTokensGo] at ht
    by_cases hc : cur.isEmpty = true
    · rw [if_pos hc] at ht
      exact absurd ht (List.not_mem_nil t)
    · rw [if_neg hc] at ht
      have hteq := List.mem_singleton.mp ht
      subst hteq
      intro hnil
      rw [List.reverse_eq_nil_iff] at hnil
      exact hc (by simp [hnil])
  | cons c rest ih =>
    intro cur t ht
    simp only [pyTokensGo] at ht
    by_cases hw : c.isWhitespace = true
    · rw [if_pos hw] at ht
      by_cases hc : cur.isEmpty = true
      · rw [if_pos hc] at ht
        exact ih [] t ht
      · rw [if_neg hc] at ht
        rcases List.mem_cons.mp ht with hteq | hmem
        · subst hteq
          intro hnil
          rw [List.reverse_eq_nil_iff] at hnil
          exact hc (by simp [hnil])
        · exact ih [] t hmem
    · rw [if_neg hw] at ht
      exact ih (c :: cur) t ht

/-- Helper for C8: every token produced by the Python-style split is a
non-empty string. -/
theorem mem_pySplit_ne (s t : String) (h : t ∈ pySplit s) : t ≠ "" := by
  rcases List.mem_map.mp h with ⟨l, hl, rfl⟩
  have hne := pyTokensGo_mem_ne_nil s.data [] l hl
  intro hcontra
  exact hne (by simpa [String.ext_iff] using hcontra)

/-- Helper for C8: joining a non-empty first token with anything yields a
non-empty string. -/
theorem pyJoin_ne_empty (sep u : String) (us : List String) (hu : u ≠ "") :
    pyJoin sep (u :: us) ≠ "" := by
  cases us with
  | nil => simpa [pyJoin] using hu
  | cons v vs =>
    intro h
    have hd := congrArg String.data h
    simp only [pyJoin, String.data_append, List.append_eq_nil] at hd
    exact hu (String.ext hd.1.1)


/-- Helper for C8: the only entry of the pre-filter request dict whose key
is last_name carries the computed last name. -/
theorem mem_chapaFieldsWith_last (pd : PaymentData) (fn : String)
    (v : JVal) (h : ("last_name", v) ∈ chapaFieldsWith pd fn) :
    v = JVal.str (chapaLastName pd.customerName) := by
  simp only [chapaFieldsWith, List.mem_cons, List.not_mem_nil, or_false] at h
  rcases h with h | h | h | h | h | h | h | h | h | h | h <;>
    first
      | exact congrArg Prod.snd h
      | exact absurd (congrArg Prod.fst h) (by simp)

/-- Helper for C8: the only entry of the pre-filter request dict whose key
is first_name carries the resolved first name. -/
theorem mem_chapaFieldsWith_first (pd : PaymentData) (fn : String)
    (v : JVal) (h : ("first_name", v) ∈ chapaFieldsWith pd fn) :
    v = JVal.str fn := by
  simp only [chapaFieldsWith, List.mem_cons, List.not_mem_nil, or_false] at h
  rcases h with h | h | h | h | h | h | h | h | h | h | h <;>
    first
      | exact congrArg Prod.snd h
      | exact absurd (congrArg Prod.fst h) (by simp)

/-- C8 counterexample.  The claim quantifies over every customer full-name
string.  On the code, a non-empty name consisting only of whitespace is
truthy, so the first-name expression indexes into an empty split list and
raises IndexError: no outbound request is built at all. -/
theorem c8_counterexample :
    buildChapaData
      { amount := "100.0", currency := "ETB",
        customerEmail := "ada@example.com", customerPhone := "",
        customerName := " ", reference := "TRV-1", bookingId := 42,
        returnUrl := "", callbackUrl := "" } = none := by
  decide

/-- C8 amended.  For every customer name that is empty or contains at least
one non-whitespace character (so that the builder does not raise), the
outbound request satisfies the claim: its first_name is the first
space-delimited token, its last_name is the remaining tokens joined by
single spaces and is omitted when there is no remainder, every field with
an empty value is omitted (only truthy values are kept), and the meta
object carrying booking_id and customer_name is always attached; for an
empty name, first_name and last_name are both omitted.  For a non-empty
whitespace-only name the builder raises instead (see the counterexample). -/
theorem c8_amended (pd : PaymentData) :
    (∀ t ts, pySplit pd.customerName = t :: ts →
      ∃ req, buildChapaData pd = some req ∧
        (∀ kv ∈ req, jtruthy kv.2 = true) ∧
        ("first_name", JVal.str t) ∈ req ∧
        (ts ≠ [] → chapaLastName pd.customerName = pyJoin " " ts ∧
          ("last_name", JVal.str (pyJoin " " ts)) ∈ req) ∧
        (ts = [] → ∀ v, ("last_name", v) ∉ req) ∧
        ("meta", JVal.metaObj pd.bookingId pd.customerName) ∈ req) ∧
    (pd.customerName = "" →
      ∃ req, buildChapaData pd = some req ∧
        (∀ kv ∈ req, jtruthy kv.2 = true) ∧
        (∀ v, ("first_name", v) ∉ req) ∧
        (∀ v, ("last_name", v) ∉ req) ∧
        ("meta", JVal.metaObj pd.bookingId pd.customerName) ∈ req) := by
  constructor
  · intro t ts hsplit
    have hname : pd.customerName ≠ "" := by
      intro h0
      rw [h0] at hsplit
      simp [pySplit, pyTokensGo] at hsplit
    have ht : t ≠ "" :=
      mem_pySplit_ne pd.customerName t
        (by rw [hsplit]; exact List.mem_cons_self t ts)
    have hfn : chapaFirstName pd.customerName = some t := by
      rw [chapaFirstName, if_pos hname, hsplit]
      rfl
    refine ⟨(chapaFieldsWith pd t).filter (fun kv => jtruthy kv.2),
      by simp only [buildChapaData, hfn], ?_, ?_, ?_, ?_, ?_⟩
    · exact fun kv hkv => (List.mem_filter.mp hkv).2
    · exact List.mem_filter.mpr
        ⟨by simp [chapaFieldsWith], by simp [jtruthy, ht]⟩
    · intro hts
      have hlen : (pySplit pd.customerName).length > 1 := by
        rw [hsplit]
        have := List.length_pos.mpr hts
        simp only [List.length_cons]
        omega
      have hlast : chapaLastName pd.customerName = pyJoin " " ts := by
        rw [chapaLastName, if_pos hlen, hsplit]
        rfl
      refine ⟨hlast, List.mem_filter.mpr ⟨?_, ?_⟩⟩
      · rw [← hlast]
        simp [chapaFieldsWith]
      · rcases ts with _ | ⟨u, us⟩
        · exact absurd rfl hts
        · have hu : u ≠ "" :=
            mem_pySplit_ne pd.customerName u
              (by rw [hsplit]
                  exact List.mem_cons_of_mem t (List.mem_cons_self u us))
          simp [jtruthy, pyJoin_ne_empty " " u us hu]
    · intro hts v hv
      rcases List.mem_filter.mp hv with ⟨hmem, htr⟩
      have hlast : chapaLastName pd.customerName = "" := by
        rw [chapaLastName, if_neg]
        rw [hsplit, hts]
        simp
      have hveq := mem_chapaFieldsWith_last pd t v hmem
      subst hveq
      rw [hlast] at htr
      simp [jtruthy] at htr
    · exact List.mem_filter.mpr
        ⟨by simp [chapaFieldsWith], by simp [jtruthy]⟩
  · intro h0
    have hfn : chapaFirstName pd.customerName = some "" := by
      rw [chapaFirstName, if_neg (by simp [h0])]
    refine ⟨(chapaFieldsWith pd "").filter (fun kv => jtruthy kv.2),
      by simp only [buildChapaData, hfn], ?_, ?_, ?_, ?_⟩
    · exact fun kv hkv => (List.mem_filter.mp hkv).2
    · intro v hv
      rcases List.mem_filter.mp hv with ⟨hmem, htr⟩
      have hveq := mem_chapaFieldsWith_first pd "" v hmem
      subst hveq
      simp [jtruthy] at htr
    · intro v hv
      rcases List.mem_filter.mp hv with ⟨hmem, htr⟩
      have hlast : chapaLastName pd.customerName = "" := by
        rw [h0]
        decide
      have hveq := mem_chapaFieldsWith_last pd "" v hmem
      subst hveq
      rw [hlast] at htr
      simp [jtruthy] at htr
    · exact List.mem_filter.mpr
        ⟨by simp [chapaFieldsWith], by simp [jtruthy]⟩

/-- A concrete initiation input used by the C8 witness. -/
def pdEx : PaymentData :=
  { amount := "100.0", currency := "ETB",
    customerEmail := "ada@example.com", customerPhone := "",
    customerName := "Ada Lovelace King", reference := "TRV-1",
    bookingId := 42, returnUrl := "", callbackUrl := "" }

/-- The outbound request the builder produces for pdEx: the empty phone,
callback and return fields are omitted. -/
def chapaReqEx : List (String × JVal) :=
  [("amount", JVal.str "100.0"), ("currency", JVal.str "ETB"),
   ("email", JVal.str "ada@example.com"),
   ("first_name", JVal.str "Ada"),
   ("last_name", JVal.str "Lovelace King"),
   ("tx_ref", JVal.str "TRV-1"),
   ("description", JVal.str "Payment for booking 42"),
   ("meta", JVal.metaObj 42 "Ada Lovelace King")]

/-- C8 witness: the amended statement applied to the concrete input pdEx,
whose name splits into three tokens. -/
theorem c8_witness :
    buildChapaData pdEx = some chapaReqEx ∧
    ("first_name", JVal.str "Ada") ∈ chapaReqEx ∧
    ("last_name", JVal.str "Lovelace King") ∈ chapaReqEx ∧
    ("meta", JVal.metaObj 42 "Ada Lovelace King") ∈ chapaReqEx := by
  obtain ⟨req, h1, h2, h3, h4, h5, h6⟩ :=
    (c8_amended pdEx).1 "Ada" ["Lovelace", "King"] (by decide)
  have hb : buildChapaData pdEx = some chapaReqEx := by decide
  have hreq : req = chapaReqEx := Option.some.inj (h1.symm.trans hb)
  rcases h4 (by decide) with ⟨-, hmem⟩
  subst hreq
  have hjoin : pyJoin " " ["Lovelace", "King"] = "Lovelace King" := by decide
  rw [hjoin] at hmem
  exact ⟨hb, h3, hmem, by simpa using h6⟩

/-- C9 confirmed.  A webhook payload with no transaction reference is
rejected as malformed, and a payload whose reference matches no stored
payment yields the not-found outcome with the store unchanged and no
notification enqueued (returned as an outcome, not raised). -/
theorem c9_theorem (store : List Payment) (payload : WebhookPayload)
    (gw : GwVerify) (now : Int) :
    (payload.txRef = none →
      paymentWebhookOp store payload gw now =
        (WebhookOutcome.malformed, store, [])) ∧
    (∀ r, payload.txRef = some r → r ≠ "" →
      (∀ p ∈ store, p.chapaTransactionId ≠ some r) →
      paymentWebhookOp store payload gw now =
        (WebhookOutcome.notFound, store, [])) := by
  constructor
  · intro h
    simp only [paymentWebhookOp, h]
  · intro r hr hne hmiss
    have hfind : findByTx store r = none := by
      rw [findByTx, List.find?_eq_none]
      intro p hp
      simpa using hmiss p hp
    simp only [paymentWebhookOp, hr]
    rw [if_neg hne, hfind]

/-- C9 witness: a payload with no reference is malformed, and the payload
with the unknown reference unknown-ref leaves the one-payment store
untouched with a not-found outcome. -/
theorem c9_witness :
    paymentWebhookOp [pProcessing]
        { txRef := none, payloadStatus := some "success" }
        (GwVerify.ok "success" none) 5 =
      (WebhookOutcome.malformed, [pProcessing], []) ∧
    paymentWebhookOp [pProcessing]
        { txRef := some "unknown-ref", payloadStatus := none }
        (GwVerify.ok "success" none) 5 =
      (WebhookOutcome.notFound, [pProcessing], []) :=
  ⟨(c9_theorem [pProcessing] { txRef := none, payloadStatus := some "success" }
      (GwVerify.ok "success" none) 5).1 rfl,
   (c9_theorem [pProcessing] { txRef := some "unknown-ref", payloadStatus := none }
      (GwVerify.ok "success" none) 5).2 "unknown-ref" rfl (by decide)
      (by decide)⟩

/-- C10 confirmed.  A payment whose gateway initiation failed never has a
gateway transaction id (it is assigned only on the successful branch), and
the verify and webhook endpoints, which look payments up by equality of the
nullable column against a non-empty reference, can neither find nor mutate
any payment in a store whose rows all have a null transaction id. -/
theorem c10_theorem (fid : Nat) (now : Int) (e : String)
    (store : List Payment) (ref : String) (gw : GwVerify)
    (pst : Option String) :
    (∀ q, (finishInit fid now (GwInit.err e)).2 = some q →
      q.chapaTransactionId = none ∧ q.status = PStatus.failed) ∧
    ((∀ p ∈ store, p.chapaTransactionId = none) → ref ≠ "" →
      findByTx store ref = none ∧
      verifyPaymentEndpoint store ref gw now =
        (VerifyEndpointOutcome.notFound, store, []) ∧
      paymentWebhookOp store { txRef := some ref, payloadStatus := pst }
        gw now = (WebhookOutcome.notFound, store, [])) := by
  constructor
  · intro q hq
    simp only [finishInit] at hq
    rw [← Option.some.inj hq]
    exact ⟨rfl, rfl⟩
  · intro hall hne
    have hfind : findByTx store ref = none := by
      rw [findByTx, List.find?_eq_none]
      intro p hp
      simp [hall p hp]
    refine ⟨hfind, ?_, ?_⟩
    · simp only [verifyPaymentEndpoint, hfind]
    · simp only [paymentWebhookOp]
      rw [if_neg hne, hfind]

/-- C10 witness: the failed-initiation record has no transaction id, and a
store holding only the concrete failed payment is unreachable through the
verify and webhook endpoints under the reference TRV-X. -/
theorem c10_witness :
    ({ (mkFreshPayment 7 0) with status := PStatus.failed,
                                 failureReason := some "gateway down" } :
        Payment).chapaTransactionId =
      none ∧
    findByTx [pFailed] "TRV-X" = none ∧
    verifyPaymentEndpoint [pFailed] "TRV-X" (GwVerify.ok "success" none) 5 =
      (VerifyEndpointOutcome.notFound, [pFailed], []) ∧
    paymentWebhookOp [pFailed] { txRef := some "TRV-X", payloadStatus := none }
      (GwVerify.ok "success" none) 5 =
      (WebhookOutcome.notFound, [pFailed], []) := by
  have h1 := (c10_theorem 7 0 "gateway down" [pFailed] "TRV-X"
      (GwVerify.ok "success" none) none).1
      { (mkFreshPayment 7 0) with status := PStatus.failed,
                                  failureReason := some "gateway down" } rfl
  have h2 := (c10_theorem 7 0 "gateway down" [pFailed] "TRV-X"
      (GwVerify.ok "success" none) none).2 (by decide) (by decide)
  exact ⟨h1.1, h2.1, h2.2.1, h2.2.2⟩

end AlxTravel
